import Mathlib

/-!
# Verification of the SMTC bridge (NativePlugins/SmtcBridge/src/smtc_bridge.cpp)

Shallow embedding of the TransportControlBridge module.  The C++ file keeps a
set of process-wide globals (`g_initialized`, `g_comInitialized`,
`g_mediaPlayer`, `g_smtc`, `g_displayUpdater`, `g_lastError`,
`g_buttonCallback`, `g_positionCallback`) guarded by one `std::mutex`
(`g_mutex`); every public operation acquires the mutex for its whole duration,
so from the caller's perspective each operation is one atomic transition on
that global state.  We model the global state as a structure `BridgeState` and
every public operation as a function from the state (plus its C arguments and
an oracle describing the behaviour of the native WinRT layer, which the module
does not control) to a return code and a successor state.

The native objects (`MediaPlayer`, `SystemMediaTransportControls`,
`SystemMediaTransportControlsDisplayUpdater`) are modelled by the parts of
their state that the module reads or writes: playback status, per-button
enabled flags, timeline properties, media type, music metadata and thumbnail.
Native calls that can throw `winrt::hresult_error` are given an `Option`
oracle argument: `none` means the call succeeds, `some msg` means it throws
with message `msg`.

A second, lock-level model of `SetError` and one representative operation is
given at the end, in which acquisition of the (non-recursive) `std::mutex` is
explicit, to analyse the re-acquisition of `g_mutex` performed by `SetError`
while the calling operation already holds it.
-/

namespace SmtcBridge

/-- `Windows.Media.MediaPlaybackStatus` values used by the module. -/
inductive MediaPlaybackStatus where
  | closed
  | stopped
  | playing
  | paused
  | changing
deriving DecidableEq, Repr

/-- `Windows.Media.MediaPlaybackType` values used by the module. -/
inductive MediaPlaybackType where
  | unknown
  | music
  | video
  | image
deriving DecidableEq, Repr

/-- The music metadata fields of the display updater that `SmtcSetMusicInfo`
writes (`Title`, `Artist`, `AlbumTitle`). -/
structure MusicProperties where
  title : String
  artist : String
  album : String
deriving DecidableEq, Repr

/-- The thumbnail slot of the display updater: cleared (`Thumbnail(nullptr)`),
a stream reference created from a URI (`SmtcSetThumbnailFromFile`), or a
stream reference over a copied byte buffer (`SmtcSetThumbnailFromMemory`). -/
inductive Thumbnail where
  | cleared
  | fromUri (uri : String)
  | fromStream (data : List Nat)
deriving DecidableEq, Repr

/-- The per-button `IsXxxEnabled` flags of the transport-controls object that
the module reads and writes (the seven wired buttons). -/
structure ButtonFlags where
  play : Bool
  pause : Bool
  stop : Bool
  next : Bool
  previous : Bool
  fastForward : Bool
  rewind : Bool
deriving DecidableEq, Repr

/-- A `SystemMediaTransportControlsTimelineProperties` value as set by
`SmtcSetTimelineProperties` (all fields in milliseconds, signed 64-bit in the
source; modelled as `Int`). -/
structure TimelineProperties where
  startTime : Int
  endTime : Int
  position : Int
  minSeekTime : Int
  maxSeekTime : Int
deriving DecidableEq, Repr

/-- The observable state of the native `SystemMediaTransportControls` object
(`g_smtc`). `timeline = none` until `UpdateTimelineProperties` is called. -/
structure SmtcControls where
  isEnabled : Bool
  playbackStatus : MediaPlaybackStatus
  buttons : ButtonFlags
  timeline : Option TimelineProperties
deriving DecidableEq, Repr

/-- The observable state of the native display updater (`g_displayUpdater`). -/
structure DisplayUpdater where
  mediaType : MediaPlaybackType
  musicProps : MusicProperties
  thumbnail : Thumbnail
deriving DecidableEq, Repr

/-- The module's global state: the C++ file's globals.  `smtc = none` models a
null `g_smtc` handle, likewise `displayUpdater`; `mediaPlayer` records whether
`g_mediaPlayer` is non-null.  Callbacks are modelled by opaque identities
(`Option Nat`), `none` being a null function pointer. -/
structure BridgeState where
  initialized : Bool
  comInitialized : Bool
  mediaPlayer : Bool
  smtc : Option SmtcControls
  displayUpdater : Option DisplayUpdater
  lastError : String
  buttonCallback : Option Nat
  positionCallback : Option Nat
deriving DecidableEq, Repr

/-- The state at module load: every global at its static initializer. -/
def initialState : BridgeState :=
  { initialized := false
    comInitialized := false
    mediaPlayer := false
    smtc := none
    displayUpdater := none
    lastError := ""
    buttonCallback := none
    positionCallback := none }

/-- `SetError` (smtc_bridge.cpp:48): overwrite `g_lastError`.  In this
atomic-transition model the mutex re-acquisition inside `SetError` is elided;
the lock-level model at the end of the file treats it faithfully. -/
def setErrorStr (s : BridgeState) (e : String) : BridgeState :=
  { s with lastError := e }

/-- Result of the `CoInitializeEx(nullptr, COINIT_MULTITHREADED)` call at the
start of `SmtcInitialize`: `S_OK`, `S_FALSE` (already on this thread),
`RPC_E_CHANGED_MODE`, or any other failing HRESULT. -/
inductive ComInitResult where
  | ok
  | sFalse
  | changedMode
  | failed
deriving DecidableEq, Repr

/-- Behaviour of the native setup block of `SmtcInitialize` (everything after
the COM call, inside the `try`).  On a throw, the booleans record which of the
globals `g_mediaPlayer` / `g_smtc` / `g_displayUpdater` had already been
assigned when the exception escaped (the assignments happen in that order in
the source). -/
inductive SetupResult where
  | success
  | smtcNull
  | winrtThrow (assignedPlayer assignedSmtc assignedUpdater : Bool) (msg : String)
  | stdThrow (assignedPlayer assignedSmtc assignedUpdater : Bool) (msg : String)
deriving DecidableEq, Repr

/-- Oracle for one run of `SmtcInitialize`: the COM result, the fate of the
native setup block, and the OS-default state of the freshly obtained
transport-controls and display-updater objects (their fields before the module
overwrites some of them). -/
structure InitNative where
  comResult : ComInitResult
  setup : SetupResult
  osControls : SmtcControls
  osUpdater : DisplayUpdater
deriving DecidableEq, Repr

/-- `SmtcInitialize` (smtc_bridge.cpp:60).  Returns `0` immediately when
already initialized.  Otherwise: COM phase (a failing HRESULT other than
`S_FALSE`/`RPC_E_CHANGED_MODE` sets the error and returns `-1`); then the
native setup: create the `MediaPlayer`, disable its command manager, obtain
the transport controls (null check, `-1`), enable play/pause/next/previous,
disable stop, obtain the display updater and set its type to `Music`,
register the `ButtonPressed` handler, enable the controls; on success clear
`g_lastError` and return `0`; a `winrt::hresult_error` gives `-2`, any other
`std::exception` gives `-3`. -/
def SmtcInitialize (s : BridgeState) (nb : InitNative) : Int × BridgeState :=
  if s.initialized then
    (0, s)
  else
    let s1 : BridgeState :=
      match nb.comResult with
      | .ok => { s with comInitialized := true }
      | .changedMode => { s with comInitialized := false }
      | _ => s
    match nb.comResult with
    | .failed => (-1, setErrorStr s1 "Failed to initialize COM")
    | _ =>
      match nb.setup with
      | .success =>
          (0, { s1 with
                 mediaPlayer := true
                 smtc := some { nb.osControls with
                                  isEnabled := true
                                  buttons := { nb.osControls.buttons with
                                                 play := true
                                                 pause := true
                                                 next := true
                                                 previous := true
                                                 stop := false } }
                 displayUpdater := some { nb.osUpdater with mediaType := .music }
                 initialized := true
                 lastError := "" })
      | .smtcNull =>
          (-1, setErrorStr { s1 with mediaPlayer := true, smtc := none }
                 "Failed to get SystemMediaTransportControls")
      | .winrtThrow ap asm au msg =>
          (-2, setErrorStr
                 { s1 with
                     mediaPlayer := ap
                     smtc := if asm then some nb.osControls else s1.smtc
                     displayUpdater := if au then some nb.osUpdater else s1.displayUpdater }
                 ("WinRT error: " ++ msg))
      | .stdThrow ap asm au msg =>
          (-3, setErrorStr
                 { s1 with
                     mediaPlayer := ap
                     smtc := if asm then some nb.osControls else s1.smtc
                     displayUpdater := if au then some nb.osUpdater else s1.displayUpdater }
                 ("Exception: " ++ msg))

/-- `SmtcShutdown` (smtc_bridge.cpp:158).  No-op when not initialized.
Otherwise best-effort teardown: unsubscribe the button handler, disable the
controls, null out the updater, controls and (closed) media player, clear
both callback slots, flip `g_initialized` to false, and uninitialize COM only
when this module had initialized it.  Every teardown step is wrapped in
`catch (...) {}`, so the final global state is the same whether or not the
individual native calls throw; `g_lastError` is untouched. -/
def SmtcShutdown (s : BridgeState) : BridgeState :=
  if s.initialized then
    { s with
        smtc := none
        displayUpdater := none
        mediaPlayer := false
        buttonCallback := none
        positionCallback := none
        initialized := false
        comInitialized := false }
  else
    s

/-- `SmtcIsInitialized` (smtc_bridge.cpp:209): lock-protected read of
`g_initialized`, `1` or `0`, no state change. -/
def SmtcIsInitialized (s : BridgeState) : Int :=
  if s.initialized then 1 else 0

/-- The `switch (mediaType)` of `SmtcSetMediaType`: C enum values
`SMTC_MEDIA_MUSIC = 1`, `SMTC_MEDIA_VIDEO = 2`, `SMTC_MEDIA_IMAGE = 3`,
anything else maps to `Unknown`. -/
def mediaTypeOfCode (mediaType : Int) : MediaPlaybackType :=
  if mediaType = 1 then .music
  else if mediaType = 2 then .video
  else if mediaType = 3 then .image
  else .unknown

/-- `SmtcSetMediaType` (smtc_bridge.cpp:216).  `-1` with error
`"Not initialized"` when `!g_initialized || !g_displayUpdater`; otherwise the
single native call `g_displayUpdater.Type(type)` either succeeds (`0`) or
throws (`-2`, error message captured). -/
def SmtcSetMediaType (s : BridgeState) (mediaType : Int) (ex : Option String) :
    Int × BridgeState :=
  if s.initialized = false then (-1, setErrorStr s "Not initialized")
  else
    match s.displayUpdater with
    | none => (-1, setErrorStr s "Not initialized")
    | some du =>
      match ex with
      | some msg => (-2, setErrorStr s ("WinRT error: " ++ msg))
      | none =>
          let du2 := { du with mediaType := mediaTypeOfCode mediaType }
          (0, { s with displayUpdater := some du2 })

/-- The sequence of property writes performed by the `try` block of
`SmtcSetMusicInfo`: one write per non-null argument, in source order
(`Title`, then `Artist`, then `AlbumTitle`). -/
def musicPropsUpdates (title artist album : Option String) :
    List (MusicProperties → MusicProperties) :=
  (match title with
   | some t => [fun mp => { mp with title := t }]
   | none => []) ++
  (match artist with
   | some a => [fun mp => { mp with artist := a }]
   | none => []) ++
  (match album with
   | some al => [fun mp => { mp with album := al }]
   | none => [])

/-- `SmtcSetMusicInfo` (smtc_bridge.cpp:249).  Null pointers are modelled as
`none`.  `-1`/`"Not initialized"` when `!g_initialized || !g_displayUpdater`.
Otherwise each non-null argument overwrites its field.  The exception oracle
`some (k, msg)` means the native layer threw at the `k`-th property call, so
only the first `k` writes took effect (`-2`); `none` means all writes
succeed (`0`). -/
def SmtcSetMusicInfo (s : BridgeState) (title artist album : Option String)
    (ex : Option (Nat × String)) : Int × BridgeState :=
  if s.initialized = false then (-1, setErrorStr s "Not initialized")
  else
    match s.displayUpdater with
    | none => (-1, setErrorStr s "Not initialized")
    | some du =>
      let upds := musicPropsUpdates title artist album
      match ex with
      | some (k, msg) =>
          let mp := (upds.take k).foldl (fun mp f => f mp) du.musicProps
          (-2, setErrorStr
                 { s with displayUpdater := some { du with musicProps := mp } }
                 ("WinRT error: " ++ msg))
      | none =>
          let mp := upds.foldl (fun mp f => f mp) du.musicProps
          (0, { s with displayUpdater := some { du with musicProps := mp } })

/-- `SmtcSetThumbnailFromFile` (smtc_bridge.cpp:274).  A null path clears the
thumbnail; a non-null path is turned into a URI stream reference.  The URI
construction or the `Thumbnail` write can throw, in which case the thumbnail
slot is unchanged (`-2`). -/
def SmtcSetThumbnailFromFile (s : BridgeState) (filePath : Option String)
    (ex : Option String) : Int × BridgeState :=
  if s.initialized = false then (-1, setErrorStr s "Not initialized")
  else
    match s.displayUpdater with
    | none => (-1, setErrorStr s "Not initialized")
    | some du =>
      match ex with
      | some msg => (-2, setErrorStr s ("WinRT error: " ++ msg))
      | none =>
        match filePath with
        | some p =>
            (0, { s with displayUpdater := some { du with thumbnail := .fromUri p } })
        | none =>
            (0, { s with displayUpdater := some { du with thumbnail := .cleared } })

/-- `SmtcSetThumbnailFromMemory` (smtc_bridge.cpp:298).  With non-null `data`
and `dataSize > 0` the first `dataSize` bytes are copied into an in-memory
stream and referenced; otherwise (`data` null or `dataSize == 0`) the
thumbnail is cleared.  `mimeType` is accepted but never read by the native
layer.  Any throw while building the stream or writing the thumbnail leaves
the thumbnail slot unchanged (`-2`). -/
def SmtcSetThumbnailFromMemory (s : BridgeState) (data : Option (List Nat))
    (dataSize : Nat) (mimeType : Option String) (ex : Option String) :
    Int × BridgeState :=
  if s.initialized = false then (-1, setErrorStr s "Not initialized")
  else
    match s.displayUpdater with
    | none => (-1, setErrorStr s "Not initialized")
    | some du =>
      match ex with
      | some msg => (-2, setErrorStr s ("WinRT error: " ++ msg))
      | none =>
        match data with
        | some d =>
            if dataSize > 0 then
              let du2 := { du with thumbnail := Thumbnail.fromStream (d.take dataSize) }
              (0, { s with displayUpdater := some du2 })
            else
              (0, { s with displayUpdater := some { du with thumbnail := .cleared } })
        | none =>
            (0, { s with displayUpdater := some { du with thumbnail := .cleared } })

/-- `SmtcClearThumbnail` (smtc_bridge.cpp:333): `Thumbnail(nullptr)`. -/
def SmtcClearThumbnail (s : BridgeState) (ex : Option String) : Int × BridgeState :=
  if s.initialized = false then (-1, setErrorStr s "Not initialized")
  else
    match s.displayUpdater with
    | none => (-1, setErrorStr s "Not initialized")
    | some du =>
      match ex with
      | some msg => (-2, setErrorStr s ("WinRT error: " ++ msg))
      | none =>
          (0, { s with displayUpdater := some { du with thumbnail := .cleared } })

/-- `SmtcUpdateDisplay` (smtc_bridge.cpp:351): `g_displayUpdater.Update()`
flushes the staged metadata to the OS shell; no module-visible state
changes. -/
def SmtcUpdateDisplay (s : BridgeState) (ex : Option String) : Int × BridgeState :=
  if s.initialized = false then (-1, setErrorStr s "Not initialized")
  else
    match s.displayUpdater with
    | none => (-1, setErrorStr s "Not initialized")
    | some _ =>
      match ex with
      | some msg => (-2, setErrorStr s ("WinRT error: " ++ msg))
      | none => (0, s)

/-- The `switch (status)` of `SmtcSetPlaybackStatus`: C enum values
`SMTC_PLAYBACK_CLOSED = 0`, `STOPPED = 1`, `PLAYING = 2`, `PAUSED = 3`,
`CHANGING = 4`; any other value falls to `default` and maps to `Stopped`. -/
def playbackStatusOfCode (status : Int) : MediaPlaybackStatus :=
  if status = 0 then .closed
  else if status = 1 then .stopped
  else if status = 2 then .playing
  else if status = 3 then .paused
  else if status = 4 then .changing
  else .stopped

/-- The read-back `switch` of `SmtcGetPlaybackStatus`, native status to C
enum value (the `default` arm returning `SMTC_PLAYBACK_STOPPED` is
unreachable over the five-valued native enumeration). -/
def codeOfPlaybackStatus : MediaPlaybackStatus → Int
  | .closed => 0
  | .stopped => 1
  | .playing => 2
  | .paused => 3
  | .changing => 4

/-- `SmtcSetPlaybackStatus` (smtc_bridge.cpp:371).  Precondition is
`!g_initialized || !g_smtc`; the single native call
`g_smtc.PlaybackStatus(mpStatus)` either succeeds (`0`) or throws (`-2`). -/
def SmtcSetPlaybackStatus (s : BridgeState) (status : Int) (ex : Option String) :
    Int × BridgeState :=
  if s.initialized = false then (-1, setErrorStr s "Not initialized")
  else
    match s.smtc with
    | none => (-1, setErrorStr s "Not initialized")
    | some c =>
      match ex with
      | some msg => (-2, setErrorStr s ("WinRT error: " ++ msg))
      | none =>
          let c2 := { c with playbackStatus := playbackStatusOfCode status }
          (0, { s with smtc := some c2 })

/-- `SmtcGetPlaybackStatus` (smtc_bridge.cpp:410).  Returns
`SMTC_PLAYBACK_CLOSED` (0) when `!g_initialized || !g_smtc` and on any caught
exception (`ex = true`); never writes any global (the state is passed through
unchanged, exactly as the source performs no assignment). -/
def SmtcGetPlaybackStatus (s : BridgeState) (ex : Bool) : Int × BridgeState :=
  if s.initialized = false then (0, s)
  else
    match s.smtc with
    | none => (0, s)
    | some c => if ex then (0, s) else (codeOfPlaybackStatus c.playbackStatus, s)

/-- The seven button values wired in the `switch` of `SmtcSetButtonEnabled`
and `SmtcIsButtonEnabled` (C enum: `PLAY = 0`, `PAUSE = 1`, `STOP = 2`,
`FAST_FORWARD = 4`, `REWIND = 5`, `NEXT = 6`, `PREVIOUS = 7`; the declared
values `RECORD = 3`, `CHANNEL_UP = 8`, `CHANNEL_DOWN = 9` have no case). -/
def isWiredButton (buttonType : Int) : Bool :=
  buttonType = 0 || buttonType = 1 || buttonType = 2 || buttonType = 4 ||
  buttonType = 5 || buttonType = 6 || buttonType = 7

/-- Write of one wired button flag (`g_smtc.IsXxxEnabled(isEnabled)`). -/
def setButtonFlag (b : ButtonFlags) (buttonType : Int) (v : Bool) : ButtonFlags :=
  if buttonType = 0 then { b with play := v }
  else if buttonType = 1 then { b with pause := v }
  else if buttonType = 2 then { b with stop := v }
  else if buttonType = 4 then { b with fastForward := v }
  else if buttonType = 5 then { b with rewind := v }
  else if buttonType = 6 then { b with next := v }
  else if buttonType = 7 then { b with previous := v }
  else b

/-- Read of one wired button flag (`g_smtc.IsXxxEnabled()`). -/
def getButtonFlag (b : ButtonFlags) (buttonType : Int) : Bool :=
  if buttonType = 0 then b.play
  else if buttonType = 1 then b.pause
  else if buttonType = 2 then b.stop
  else if buttonType = 4 then b.fastForward
  else if buttonType = 5 then b.rewind
  else if buttonType = 6 then b.next
  else if buttonType = 7 then b.previous
  else false

/-- `SmtcSetButtonEnabled` (smtc_bridge.cpp:441).  Precondition
`!g_initialized || !g_smtc` gives `-1`/`"Not initialized"`.  A button value
with no `switch` case hits `default`: `SetError("Unknown button type")` and
`-1`, with no native call made (so the exception oracle is irrelevant there).
For a wired button the single native flag write succeeds (`0`) or throws
(`-2`). -/
def SmtcSetButtonEnabled (s : BridgeState) (buttonType enabled : Int)
    (ex : Option String) : Int × BridgeState :=
  if s.initialized = false then (-1, setErrorStr s "Not initialized")
  else
    match s.smtc with
    | none => (-1, setErrorStr s "Not initialized")
    | some c =>
      if isWiredButton buttonType then
        match ex with
        | some msg => (-2, setErrorStr s ("WinRT error: " ++ msg))
        | none =>
            let c2 := { c with buttons := setButtonFlag c.buttons buttonType (enabled ≠ 0) }
            (0, { s with smtc := some c2 })
      else
        (-1, setErrorStr s "Unknown button type")

/-- `SmtcIsButtonEnabled` (smtc_bridge.cpp:485).  Returns `0` when
`!g_initialized || !g_smtc`, on an unwired button value (`default` arm) and
on any caught exception; otherwise the flag as `1`/`0`.  No global is ever
written (state passed through unchanged). -/
def SmtcIsButtonEnabled (s : BridgeState) (buttonType : Int) (ex : Bool) :
    Int × BridgeState :=
  if s.initialized = false then (0, s)
  else
    match s.smtc with
    | none => (0, s)
    | some c =>
      if ex then (0, s)
      else if isWiredButton buttonType then
        (if getButtonFlag c.buttons buttonType then 1 else 0, s)
      else (0, s)

/-- `SmtcSetTimelineProperties` (smtc_bridge.cpp:519).  Builds a local
timeline object with `StartTime = startTimeMs`, `EndTime = endTimeMs`,
`Position = positionMs`, `MinSeekTime = startTimeMs`,
`MaxSeekTime = endTimeMs` — no validation of the triple — and pushes it with
`UpdateTimelineProperties` in one native call; a throw leaves the controls
unchanged (`-2`). -/
def SmtcSetTimelineProperties (s : BridgeState)
    (startTimeMs endTimeMs positionMs : Int) (ex : Option String) :
    Int × BridgeState :=
  if s.initialized = false then (-1, setErrorStr s "Not initialized")
  else
    match s.smtc with
    | none => (-1, setErrorStr s "Not initialized")
    | some c =>
      match ex with
      | some msg => (-2, setErrorStr s ("WinRT error: " ++ msg))
      | none =>
          let tl : TimelineProperties :=
            { startTime := startTimeMs
              endTime := endTimeMs
              position := positionMs
              minSeekTime := startTimeMs
              maxSeekTime := endTimeMs }
          (0, { s with smtc := some { c with timeline := some tl } })

/-- `SmtcSetButtonPressedCallback` (smtc_bridge.cpp:549): unconditional
last-write-wins store of the function pointer (`none` = null deregisters);
works in any state, returns nothing. -/
def SmtcSetButtonPressedCallback (s : BridgeState) (callback : Option Nat) :
    BridgeState :=
  { s with buttonCallback := callback }

/-- `SmtcSetPositionChangeRequestedCallback` (smtc_bridge.cpp:554):
unconditional store of the second callback slot. -/
def SmtcSetPositionChangeRequestedCallback (s : BridgeState)
    (callback : Option Nat) : BridgeState :=
  { s with positionCallback := callback }

/-- `SmtcGetLastError` (smtc_bridge.cpp:561): read of the shared error
string. -/
def SmtcGetLastError (s : BridgeState) : String :=
  s.lastError

/-- `SmtcClearError` (smtc_bridge.cpp:566): `g_lastError.clear()`. -/
def SmtcClearError (s : BridgeState) : BridgeState :=
  { s with lastError := "" }

/-- `Windows.Media.SystemMediaTransportControlsButton`: the native button
identifiers the OS can deliver to the `ButtonPressed` handler. -/
inductive NativeButton where
  | play
  | pause
  | stop
  | record
  | fastForward
  | rewind
  | next
  | previous
  | channelUp
  | channelDown
deriving DecidableEq, Repr

/-- The `switch (args.Button())` of the `ButtonPressed` lambda registered in
`SmtcInitialize` (smtc_bridge.cpp:106): seven native identifiers translate to
the public `SmtcButtonType` values (`SMTC_BUTTON_PLAY = 0`, `PAUSE = 1`,
`STOP = 2`, `NEXT = 6`, `PREVIOUS = 7`, `FAST_FORWARD = 4`, `REWIND = 5`);
every other identifier hits `default: return;` and is dropped. -/
def mapNativeButton : NativeButton → Option Int
  | .play => some 0
  | .pause => some 1
  | .stop => some 2
  | .next => some 6
  | .previous => some 7
  | .fastForward => some 4
  | .rewind => some 5
  | _ => none

/-- One delivery of a native `ButtonPressed` event to the handler lambda:
returns the list of callback invocations `(callback identity, public button
value)` it performs and the (unchanged) global state.  The lambda reads
`g_buttonCallback`; when it is null, or when the native identifier has no
`switch` case, it returns without invoking anything and without touching
`g_lastError`. -/
def onButtonPressed (s : BridgeState) (b : NativeButton) :
    List (Nat × Int) × BridgeState :=
  match s.buttonCallback with
  | none => ([], s)
  | some cb =>
    match mapNativeButton b with
    | none => ([], s)
    | some bt => ([(cb, bt)], s)

/-!
## Lock-level model of `SetError`

`SetError` (smtc_bridge.cpp:48) takes `std::lock_guard<std::mutex>
lock(g_mutex)` before writing `g_lastError`.  Every public operation that
calls it already holds `g_mutex` through its own `lock_guard` for its whole
scope.  `std::mutex` is non-recursive: a `lock()` by the thread that already
owns the mutex is undefined behaviour and, under the faithful blocking
semantics, never returns.  The model below makes the acquisition explicit for
a single caller thread; `none` means the step blocks forever.
-/

/-- The state of `g_mutex` as seen by the single calling thread. -/
structure MutexState where
  held : Bool
deriving DecidableEq, Repr

/-- `std::mutex::lock()` by the one caller thread: blocks forever (`none`)
when that thread already holds the mutex. -/
def lockAcquire (m : MutexState) : Option MutexState :=
  if m.held then none else some { held := true }

/-- `SetError` with its own `lock_guard` made explicit: acquire `g_mutex`,
write the string, release on scope exit.  `m` is the mutex state at entry. -/
def setErrorLocked (m : MutexState) (s : BridgeState) (e : String) :
    Option (MutexState × BridgeState) :=
  match lockAcquire m with
  | none => none
  | some _ => some (m, setErrorStr s e)

/-- `SmtcSetMediaType` with the mutex made explicit.  The operation's
`lock_guard` acquires `g_mutex` at entry and holds it for the whole body, so
every `SetError` call inside the body runs with the mutex already held. -/
def smtcSetMediaTypeLocked (s : BridgeState) (mediaType : Int)
    (ex : Option String) : Option (Int × BridgeState) :=
  match lockAcquire { held := false } with
  | none => none
  | some m =>
    if s.initialized = false then
      match setErrorLocked m s "Not initialized" with
      | none => none
      | some (_, s2) => some (-1, s2)
    else
      match s.displayUpdater with
      | none =>
        match setErrorLocked m s "Not initialized" with
        | none => none
        | some (_, s2) => some (-1, s2)
      | some du =>
        match ex with
        | some msg =>
          match setErrorLocked m s ("WinRT error: " ++ msg) with
          | none => none
          | some (_, s2) => some (-2, s2)
        | none =>
            let du2 := { du with mediaType := mediaTypeOfCode mediaType }
            some (0, { s with displayUpdater := some du2 })

/-!
## Sample states

Concrete values used to instantiate the theorems' hypotheses.  `sampleInit`
is the state produced by a clean successful `SmtcInitialize` from
`initialState` with the OS defaults of `nbSample`, with some music metadata
filled in. -/

/-- OS-default transport controls for the sample oracle. -/
def osControlsSample : SmtcControls :=
  { isEnabled := false
    playbackStatus := .closed
    buttons := { play := false, pause := false, stop := false, next := false,
                 previous := false, fastForward := false, rewind := false }
    timeline := none }

/-- OS-default display updater for the sample oracle. -/
def osUpdaterSample : DisplayUpdater :=
  { mediaType := .unknown
    musicProps := { title := "", artist := "", album := "" }
    thumbnail := .cleared }

/-- A native oracle under which `SmtcInitialize` succeeds cleanly. -/
def nbSample : InitNative :=
  { comResult := .ok
    setup := .success
    osControls := osControlsSample
    osUpdater := osUpdaterSample }

/-- The transport controls as `SmtcInitialize` leaves them. -/
def sampleControls : SmtcControls :=
  { isEnabled := true
    playbackStatus := .closed
    buttons := { play := true, pause := true, stop := false, next := true,
                 previous := true, fastForward := false, rewind := false }
    timeline := none }

/-- A display updater holding some staged metadata. -/
def sampleUpdater : DisplayUpdater :=
  { mediaType := .music
    musicProps := { title := "Song", artist := "Someone", album := "Album" }
    thumbnail := .cleared }

/-- A representative initialized module state. -/
def sampleInit : BridgeState :=
  { initialized := true
    comInitialized := true
    mediaPlayer := true
    smtc := some sampleControls
    displayUpdater := some sampleUpdater
    lastError := ""
    buttonCallback := none
    positionCallback := none }

/-!
## Helper lemmas
-/

/-- A run of the initializer that returns `0` leaves `g_initialized` true. -/
theorem init_zero_flag (s : BridgeState) (nb : InitNative)
    (h : (SmtcInitialize s nb).1 = 0) :
    ((SmtcInitialize s nb).2).initialized = true := by
  by_cases hs : s.initialized
  · simp [SmtcInitialize, hs]
  · rcases nb with ⟨cr, st, oc, ou⟩
    cases cr <;> cases st <;> simp_all [SmtcInitialize, setErrorStr]

/-- On a state whose `g_initialized` flag is set, the initializer takes the
early-return path: `0`, nothing changed, no native call made. -/
theorem init_on_initialized_state (s : BridgeState) (nb : InitNative)
    (h : s.initialized = true) : SmtcInitialize s nb = (0, s) := by
  simp [SmtcInitialize, h]

/-- The music-metadata fields after a fully successful `SmtcSetMusicInfo`:
each non-null argument overwrites its field, each null argument keeps the
previous value. -/
def mergedMusicProps (mp : MusicProperties) (title artist album : Option String) :
    MusicProperties :=
  { title := title.getD mp.title
    artist := artist.getD mp.artist
    album := album.getD mp.album }

/-- The display updater after a fully successful `SmtcSetMusicInfo`. -/
def mergedUpdater (du : DisplayUpdater) (title artist album : Option String) :
    DisplayUpdater :=
  { du with musicProps := mergedMusicProps du.musicProps title artist album }

/-- The module state with the thumbnail slot cleared and everything else as
before. -/
def clearedThumbState (s : BridgeState) (du : DisplayUpdater) : BridgeState :=
  { s with displayUpdater := some { du with thumbnail := .cleared } }

/-- The timeline object built by `SmtcSetTimelineProperties`. -/
def timelineOf (startTimeMs endTimeMs positionMs : Int) : TimelineProperties :=
  { startTime := startTimeMs
    endTime := endTimeMs
    position := positionMs
    minSeekTime := startTimeMs
    maxSeekTime := endTimeMs }

/-- The transport controls after `SmtcSetTimelineProperties(a, b, p)`. -/
def timelineControls (c : SmtcControls) (a b p : Int) : SmtcControls :=
  { c with timeline := some (timelineOf a b p) }

/-- The transport controls with the playback status forced to `Stopped`. -/
def stoppedControls (c : SmtcControls) : SmtcControls :=
  { c with playbackStatus := .stopped }

/-!
## Claim theorems
-/

/-- C1: the claim says every failure path of a public operation records the
error and returns a negative code — in particular the error-recording step
performed while the operation holds the global mutex completes.  Under the
lock-level model of the non-recursive `std::mutex`, the representative
operation `SmtcSetMediaType` never returns on either failure path
(uninitialized state, or a native-layer exception), because `SetError`
re-locks `g_mutex` which the operation's own `lock_guard` already holds; the
success path, which never calls `SetError`, does return.  This refutes the
claim on the code as written. -/
theorem setError_self_lock_blocks_failure_paths :
    smtcSetMediaTypeLocked initialState 1 none = none ∧
    smtcSetMediaTypeLocked sampleInit 1 (some "boom") = none ∧
    smtcSetMediaTypeLocked sampleInit 1 none =
      some (0, sampleInit) := by decide

/-- C2 counterexample: the claim quantifies over all operations of the
surface including the getters, but `SmtcGetPlaybackStatus` invoked in the
uninitialized initial state returns `SMTC_PLAYBACK_CLOSED` (0), which is not
a negative code, and leaves the last-error string empty rather than equal to
the fixed "Not initialized" message. -/
theorem getPlaybackStatus_uninit_is_soft :
    (SmtcGetPlaybackStatus initialState false).1 = 0 ∧
    ¬ (SmtcGetPlaybackStatus initialState false).1 < 0 ∧
    (SmtcGetPlaybackStatus initialState false).2.lastError = "" ∧
    "" ≠ "Not initialized" := by decide

/-- C2 (amended): in any uninitialized state, every fallible int-returning
setter (`SetMediaType`, `SetMusicInfo`, both thumbnail setters,
`ClearThumbnail`, `UpdateDisplay`, `SetPlaybackStatus`, `SetButtonEnabled`,
`SetTimelineProperties`) returns `-1` and leaves the last-error string equal
to the fixed "Not initialized" message; the getters `GetPlaybackStatus` and
`IsButtonEnabled` instead return `0` with the state (hence the error string)
unchanged, and the two callback-registration functions store their argument
unconditionally, touching nothing else. -/
theorem uninit_surface_behaviour (s : BridgeState) (h : s.initialized = false) :
    (∀ mt ex, SmtcSetMediaType s mt ex = (-1, setErrorStr s "Not initialized")) ∧
    (∀ t a al ex, SmtcSetMusicInfo s t a al ex =
      (-1, setErrorStr s "Not initialized")) ∧
    (∀ p ex, SmtcSetThumbnailFromFile s p ex =
      (-1, setErrorStr s "Not initialized")) ∧
    (∀ d sz mime ex, SmtcSetThumbnailFromMemory s d sz mime ex =
      (-1, setErrorStr s "Not initialized")) ∧
    (∀ ex, SmtcClearThumbnail s ex = (-1, setErrorStr s "Not initialized")) ∧
    (∀ ex, SmtcUpdateDisplay s ex = (-1, setErrorStr s "Not initialized")) ∧
    (∀ st ex, SmtcSetPlaybackStatus s st ex =
      (-1, setErrorStr s "Not initialized")) ∧
    (∀ b e ex, SmtcSetButtonEnabled s b e ex =
      (-1, setErrorStr s "Not initialized")) ∧
    (∀ a b c ex, SmtcSetTimelineProperties s a b c ex =
      (-1, setErrorStr s "Not initialized")) ∧
    (∀ ex, SmtcGetPlaybackStatus s ex = (0, s)) ∧
    (∀ b ex, SmtcIsButtonEnabled s b ex = (0, s)) ∧
    (∀ cb, SmtcSetButtonPressedCallback s cb = { s with buttonCallback := cb }) ∧
    (∀ cb, SmtcSetPositionChangeRequestedCallback s cb =
      { s with positionCallback := cb }) := by
  refine ⟨?_, ?_, ?_, ?_, ?_, ?_, ?_, ?_, ?_, ?_, ?_, ?_, ?_⟩ <;> intros <;>
    simp [SmtcSetMediaType, SmtcSetMusicInfo, SmtcSetThumbnailFromFile,
          SmtcSetThumbnailFromMemory, SmtcClearThumbnail, SmtcUpdateDisplay,
          SmtcSetPlaybackStatus, SmtcSetButtonEnabled,
          SmtcSetTimelineProperties, SmtcGetPlaybackStatus,
          SmtcIsButtonEnabled, SmtcSetButtonPressedCallback,
          SmtcSetPositionChangeRequestedCallback, h]

/-- C2 witness: the amended behaviour at a concrete uninitialized state. -/
theorem uninit_surface_behaviour_witness :
    initialState.initialized = false ∧
    SmtcSetMediaType initialState 1 none =
      (-1, setErrorStr initialState "Not initialized") :=
  ⟨rfl, (uninit_surface_behaviour initialState rfl).1 1 none⟩

/-- C3: `SmtcInitialize` is idempotent: after any run of the initializer
that returned `0`, a further call — whatever the native layer would do on it
(`nb2`) — returns `0` and leaves the module state exactly unchanged, the
early `if (g_initialized) return 0;` path. -/
theorem initialize_idempotent (s : BridgeState) (nb nb2 : InitNative)
    (h : (SmtcInitialize s nb).1 = 0) :
    SmtcInitialize (SmtcInitialize s nb).2 nb2 = (0, (SmtcInitialize s nb).2) :=
  init_on_initialized_state _ nb2 (init_zero_flag s nb h)

/-- C3 witness: a clean initialization followed by a second call. -/
theorem initialize_idempotent_witness :
    (SmtcInitialize initialState nbSample).1 = 0 ∧
    SmtcInitialize (SmtcInitialize initialState nbSample).2 nbSample =
      (0, (SmtcInitialize initialState nbSample).2) :=
  ⟨by decide, initialize_idempotent initialState nbSample nbSample (by decide)⟩

/-- C4: `SmtcShutdown` in the uninitialized state changes nothing; and after
a successful `SmtcInitialize` from an uninitialized state followed by
`SmtcShutdown`, `SmtcIsInitialized` reports `0`, both callback slots are
cleared, and a further `SmtcInitialize` (same native behaviour) succeeds
again. -/
theorem shutdown_lifecycle (s : BridgeState) (nb : InitNative)
    (hu : s.initialized = false) (h : (SmtcInitialize s nb).1 = 0) :
    SmtcShutdown s = s ∧
    SmtcIsInitialized (SmtcShutdown (SmtcInitialize s nb).2) = 0 ∧
    (SmtcShutdown (SmtcInitialize s nb).2).buttonCallback = none ∧
    (SmtcShutdown (SmtcInitialize s nb).2).positionCallback = none ∧
    (SmtcInitialize (SmtcShutdown (SmtcInitialize s nb).2) nb).1 = 0 := by
  rcases nb with ⟨cr, st, oc, ou⟩
  cases cr <;> cases st <;>
    simp_all [SmtcInitialize, SmtcShutdown, SmtcIsInitialized, setErrorStr]

/-- C4 witness: the full lifecycle at the concrete initial state. -/
theorem shutdown_lifecycle_witness :
    initialState.initialized = false ∧
    (SmtcInitialize initialState nbSample).1 = 0 ∧
    SmtcIsInitialized (SmtcShutdown (SmtcInitialize initialState nbSample).2) = 0 :=
  ⟨rfl, by decide,
    (shutdown_lifecycle initialState nbSample rfl (by decide)).2.1⟩

/-- C5: in the initialized state a fully successful `SmtcSetMusicInfo` sets
exactly the fields whose argument is non-null (`some`), including overwriting
with the empty string, keeps each field whose argument is null, and changes
nothing else in the module state (thumbnail, media type, controls, error
string, callbacks all as before). -/
theorem setMusicInfo_null_keeps_fields (s : BridgeState) (du : DisplayUpdater)
    (hinit : s.initialized = true) (hdu : s.displayUpdater = some du)
    (title artist album : Option String) :
    SmtcSetMusicInfo s title artist album none =
      (0, { s with displayUpdater := some (mergedUpdater du title artist album) }) := by
  cases title <;> cases artist <;> cases album <;>
    simp [SmtcSetMusicInfo, musicPropsUpdates, mergedUpdater,
          mergedMusicProps, hinit, hdu]

/-- C5 witness: `SetMusicInfo(null, "Artist", null)` leaves the stored title
and album alone and overwrites only the artist. -/
theorem setMusicInfo_null_keeps_fields_witness :
    sampleInit.initialized = true ∧
    sampleInit.displayUpdater = some sampleUpdater ∧
    SmtcSetMusicInfo sampleInit none (some "Artist") none none =
      (0, { sampleInit with
              displayUpdater := some (mergedUpdater sampleUpdater none (some "Artist") none) }) :=
  ⟨rfl, rfl,
    setMusicInfo_null_keeps_fields sampleInit sampleUpdater rfl rfl
      none (some "Artist") none⟩

/-- C6: in the initialized state, `SetThumbnailFromFile(null)`,
`SetThumbnailFromMemory` with null data (any size), `SetThumbnailFromMemory`
with zero size (any data), and `ClearThumbnail()` all return `0` and all
produce the identical module state, whose thumbnail slot is cleared. -/
theorem thumbnail_clear_paths_agree (s : BridgeState) (du : DisplayUpdater)
    (hinit : s.initialized = true) (hdu : s.displayUpdater = some du)
    (sz : Nat) (mime mime2 : Option String) (d : List Nat) :
    SmtcSetThumbnailFromFile s none none = (0, clearedThumbState s du) ∧
    SmtcSetThumbnailFromMemory s none sz mime none = (0, clearedThumbState s du) ∧
    SmtcSetThumbnailFromMemory s (some d) 0 mime2 none = (0, clearedThumbState s du) ∧
    SmtcClearThumbnail s none = (0, clearedThumbState s du) := by
  refine ⟨?_, ?_, ?_, ?_⟩ <;>
    simp [SmtcSetThumbnailFromFile, SmtcSetThumbnailFromMemory,
          SmtcClearThumbnail, clearedThumbState, hinit, hdu]

/-- C6 witness: the four clearing calls agree on the sample state. -/
theorem thumbnail_clear_paths_agree_witness :
    sampleInit.initialized = true ∧
    SmtcSetThumbnailFromFile sampleInit none none =
      (0, clearedThumbState sampleInit sampleUpdater) :=
  ⟨rfl,
    (thumbnail_clear_paths_agree sampleInit sampleUpdater rfl rfl
      5 none (some "image/png") [1, 2, 3]).1⟩

/-- C7: for every triple of signed millisecond values, a successful
`SmtcSetTimelineProperties(a, b, p)` stores the timeline whose
`MinSeekTime` is exactly `a` and `MaxSeekTime` is exactly `b`, whatever `p`
is; the quantification is over all triples, so no local validation of
`a ≤ p ≤ b` (or `a ≤ b`) restricts the accepted inputs. -/
theorem timeline_forces_seek_bounds (s : BridgeState) (c : SmtcControls)
    (hinit : s.initialized = true) (hc : s.smtc = some c) (a b p : Int) :
    SmtcSetTimelineProperties s a b p none =
      (0, { s with smtc := some (timelineControls c a b p) }) ∧
    (timelineOf a b p).minSeekTime = a ∧ (timelineOf a b p).maxSeekTime = b := by
  refine ⟨?_, rfl, rfl⟩
  simp [SmtcSetTimelineProperties, timelineControls, timelineOf, hinit, hc]

/-- C7 witness: an inverted range (start past end, position outside) is
accepted unchanged, and the spec's own example `(0, 10000, 5000)`. -/
theorem timeline_forces_seek_bounds_witness :
    sampleInit.initialized = true ∧
    SmtcSetTimelineProperties sampleInit 0 10000 5000 none =
      (0, { sampleInit with smtc := some (timelineControls sampleControls 0 10000 5000) }) ∧
    SmtcSetTimelineProperties sampleInit 9 (-7) 123456 none =
      (0, { sampleInit with smtc := some (timelineControls sampleControls 9 (-7) 123456) }) :=
  ⟨rfl,
    (timeline_forces_seek_bounds sampleInit sampleControls rfl rfl 0 10000 5000).1,
    (timeline_forces_seek_bounds sampleInit sampleControls rfl rfl 9 (-7) 123456).1⟩

/-- C8: for every button value outside the seven wired ones, the setter is a
hard error — `-1` with the error string set to "Unknown button type", a
message distinct from the not-initialized one — while the getter on the same
value returns `0` leaving the state (hence the error string) untouched, and
the getter in any uninitialized state likewise returns `0` untouched. -/
theorem unknown_button_asymmetry (s : BridgeState) (c : SmtcControls)
    (b e : Int) (ex : Option String) (exg : Bool)
    (hinit : s.initialized = true) (hc : s.smtc = some c)
    (hb : isWiredButton b = false) :
    SmtcSetButtonEnabled s b e ex = (-1, setErrorStr s "Unknown button type") ∧
    SmtcIsButtonEnabled s b exg = (0, s) ∧
    (∀ s2 : BridgeState, s2.initialized = false →
      ∀ b2 ex2, SmtcIsButtonEnabled s2 b2 ex2 = (0, s2)) ∧
    "Unknown button type" ≠ "Not initialized" := by
  refine ⟨?_, ?_, ?_, by decide⟩
  · simp [SmtcSetButtonEnabled, hinit, hc, hb]
  · cases exg <;> simp [SmtcIsButtonEnabled, hinit, hc, hb]
  · intro s2 h2 b2 ex2
    simp [SmtcIsButtonEnabled, h2]

/-- C8 witness: button value 3 (`SMTC_BUTTON_RECORD`, declared but not
wired) on the sample initialized state. -/
theorem unknown_button_asymmetry_witness :
    sampleInit.initialized = true ∧ isWiredButton 3 = false ∧
    SmtcSetButtonEnabled sampleInit 3 1 none =
      (-1, setErrorStr sampleInit "Unknown button type") :=
  ⟨rfl, by decide,
    (unknown_button_asymmetry sampleInit sampleControls 3 1 none false
      rfl rfl (by decide)).1⟩

/-- C9: one delivery of a native button-press event invokes the registered
callback exactly once with the translated public value when the native
identifier has a `switch` case and the callback slot is non-null, and
invokes nothing at all otherwise (null callback, or unrecognized identifier
such as Record/ChannelUp/ChannelDown); in every case the global state — in
particular the error string — is untouched. -/
theorem button_relay_exact (s : BridgeState) (b : NativeButton) :
    (onButtonPressed s b).2 = s ∧
    (onButtonPressed s b).1 =
      (match s.buttonCallback, mapNativeButton b with
       | some cb, some bt => [(cb, bt)]
       | _, _ => []) := by
  cases hcb : s.buttonCallback <;> cases hb : mapNativeButton b <;>
    simp [onButtonPressed, hcb, hb]

/-- C10: in the initialized state a status argument outside `{0, …, 4}` is
not rejected: the call returns `0` and forces the native playback status to
`Stopped` (the `default` arm of the `switch`), leaving everything else —
including the error string — unchanged. -/
theorem invalid_status_coerced_to_stopped (s : BridgeState) (c : SmtcControls)
    (status : Int) (hinit : s.initialized = true) (hc : s.smtc = some c)
    (h0 : status ≠ 0) (h1 : status ≠ 1) (h2 : status ≠ 2) (h3 : status ≠ 3)
    (h4 : status ≠ 4) :
    SmtcSetPlaybackStatus s status none =
      (0, { s with smtc := some (stoppedControls c) }) := by
  simp [SmtcSetPlaybackStatus, playbackStatusOfCode, stoppedControls,
        hinit, hc, h0, h1, h2, h3, h4]

/-- C10 witness: the out-of-range status 99 on the sample state. -/
theorem invalid_status_coerced_to_stopped_witness :
    sampleInit.initialized = true ∧
    SmtcSetPlaybackStatus sampleInit 99 none =
      (0, { sampleInit with smtc := some (stoppedControls sampleControls) }) :=
  ⟨rfl,
    invalid_status_coerced_to_stopped sampleInit sampleControls 99 rfl rfl
      (by decide) (by decide) (by decide) (by decide) (by decide)⟩

end SmtcBridge
